import Mathlib

/-!
# Shallow embedding of `src/index.tsx` (AIHistoryLine)

This file embeds the logic of the single source file of the repository:

* the year-string comparator used to sort timeline events
  (`fetchTimeline`, lines 54–58 of `src/index.tsx`),
* the decode / sort / state-update pipeline of `fetchTimeline`
  (lines 22–67), and
* the submission guard `handleSubmit` (lines 69–74).

Modelling conventions:

* JavaScript numbers are modelled exactly: `parseInt` applied to the
  digits-only string either yields the decimal value of the digits
  (a `Nat`, negated to `Int` under the `"BC"` marker) or `NaN` when the
  digit string is empty.  `NaN` is modelled as `none : Option Int`;
  the comparator value `yearA - yearB` is `NaN` exactly when either key
  is `NaN`, and ECMAScript's `SortCompare` coerces a `NaN` comparator
  result to `+0`, so the comparison function returns `0` in that case.
  (All concrete inputs in this file are far below `2^53`, where IEEE
  doubles are exact, so `Nat`/`Int` arithmetic is faithful.)
* `Array.prototype.sort` is required by ECMAScript 2019+ to be stable;
  for a consistent comparison function the stable ascending reordering
  is unique, so any stable sort is an exact model.  When the comparator
  is *inconsistent* (which happens exactly when a `NaN` key appears),
  the resulting order is implementation-defined; this model fixes that
  choice to the standard stable top-down merge sort (`List.mergeSort`),
  which is one of the behaviours the standard allows and matches the
  comparison pattern of real engines on the small inputs used here.
-/

/-- A timeline event as decoded for the sorter; per the response schema
the `year` field is a string (`String(a.year)` in the comparator is then
the identity).  `link` is optional. -/
structure TimelineEvent where
  year : String
  title : String
  description : String
  details : String
  link : Option String := none
deriving DecidableEq, Repr

/-- `String(a.year).replace(/\D/g, '')`: the digit characters of `s`,
in order. -/
def digitsOf (s : String) : List Char :=
  s.data.filter Char.isDigit

/-- `parseInt` on a string consisting solely of decimal digits: its
decimal value. -/
def natOfDigits (ds : List Char) : Nat :=
  ds.foldl (fun n c => 10 * n + (c.toNat - 48)) 0

/-- Does `hay` start with `needle`? (helper for the substring test). -/
def startsWithChars : List Char → List Char → Bool
  | [], _ => true
  | _ :: _, [] => false
  | c :: cs, d :: ds => c = d && startsWithChars cs ds

/-- Substring occurrence test on character lists. -/
def hasSubChars (needle : List Char) : List Char → Bool
  | [] => needle.isEmpty
  | c :: cs => startsWithChars needle (c :: cs) || hasSubChars needle cs

/-- `String(a.year).includes('BC')`: case-sensitive substring test for
the fixed era token. -/
def containsBC (s : String) : Bool :=
  hasSubChars ['B', 'C'] s.data

/-- The effective numeric year of a year string, as computed in the
comparator:
`includes('BC') ? -parseInt(replace(/\D/g,'')) : parseInt(replace(/\D/g,''))`.
`none` models the `NaN` produced by `parseInt('')` when the string has
no digits. -/
def yearKey (s : String) : Option Int :=
  let ds := digitsOf s
  if ds.isEmpty then none
  else if containsBC s then some (-(natOfDigits ds : Int))
  else some (natOfDigits ds)

/-- The comparator result `yearA - yearB` as consumed by `SortCompare`:
when either key is `NaN` the subtraction is `NaN`, which `SortCompare`
coerces to `+0`. -/
def cmpYears (ya yb : String) : Int :=
  match yearKey ya, yearKey yb with
  | some a, some b => a - b
  | _, _ => 0

/-- The boolean "may stay before" relation induced by the comparator:
a stable sort keeps `a` before `b` exactly when the comparator does not
demand the swap, i.e. when `cmp a b ≤ 0`. -/
def eventLe (a b : TimelineEvent) : Bool :=
  cmpYears a.year b.year ≤ 0

/-- The Timeline Sorter: `events.sort(comparator)` of `src/index.tsx`
lines 54–58, modelled as the stable merge sort under `eventLe`. -/
def sortTimeline (l : List TimelineEvent) : List TimelineEvent :=
  l.mergeSort eventLe

/-- The effective year with `NaN` defaulted to `0`; on events whose year
string contains at least one digit this is exactly the effective year. -/
def keyD (e : TimelineEvent) : Int :=
  (yearKey e.year).getD 0

/-- Total order on events by `NaN`-defaulted effective year; agrees with
`eventLe` on events whose year strings contain digits. -/
def eventLeD (a b : TimelineEvent) : Bool :=
  keyD a ≤ keyD b

/-- Convenience constructor for concrete test events: only `year` and
`title` matter to the sorter. -/
def mkEvent (y t : String) : TimelineEvent :=
  ⟨y, t, "", "", none⟩

/-- Fuel-driven executable copy of `List.merge` (same algorithm; the
fuel only drives structural recursion so that the kernel can evaluate
it on concrete inputs). -/
def mrgGo (le : α → α → Bool) : Nat → List α → List α → List α
  | _, [], ys => ys
  | _, xs, [] => xs
  | 0, xs, ys => xs ++ ys
  | fuel+1, x :: xs, y :: ys =>
      if le x y then x :: mrgGo le fuel xs (y :: ys) else y :: mrgGo le fuel (x :: xs) ys

/-- Fuel-driven executable copy of `List.mergeSort` (contiguous split in
the middle, first half one longer on odd lengths, stable merge). -/
def msortGo (le : α → α → Bool) : Nat → List α → List α
  | _, [] => []
  | _, [a] => [a]
  | 0, l => l
  | fuel+1, a :: b :: l =>
      mrgGo le (l.length + 2)
        (msortGo le fuel ((a :: b :: l).take ((l.length + 2 + 1) / 2)))
        (msortGo le fuel ((a :: b :: l).drop ((l.length + 2 + 1) / 2)))

/-- Executable merge sort, proved equal to `List.mergeSort` below. -/
def msort (le : α → α → Bool) (l : List α) : List α :=
  msortGo le l.length l

/-! ## The decode pipeline: JSON values, parsing, and the raw sort

`fetchTimeline` does `JSON.parse(response.text.trim())` and then sorts
whatever came back with a type-asserted (but unchecked) cast to
`TimelineEvent[]`.  The comparator reads `a.year` from each element:
on a non-object element this property is `undefined`
(`String(undefined) = "undefined"`), and on a `null` element the access
throws a `TypeError`, which the surrounding `try` absorbs. -/

/-- JSON values as produced by `JSON.parse`.  Numbers are modelled as
integers: the model parser accepts the integer subset of JSON, which
covers every payload considered here. -/
inductive Json where
  | null
  | bool (b : Bool)
  | num (n : Int)
  | str (s : String)
  | arr (elems : List Json)
  | obj (members : List (String × Json))

/-- JSON whitespace. -/
def isWsChar (c : Char) : Bool :=
  c = ' ' || c = '\t' || c = '\n' || c = '\r'

/-- Skip leading JSON whitespace. -/
def skipWs (cs : List Char) : List Char :=
  cs.dropWhile isWsChar

/-- Scan a string literal body up to the closing quote (escape
sequences are outside the modelled subset and make the parse fail). -/
def parseStrAux : List Char → Option (List Char × List Char)
  | [] => none
  | '"' :: cs => some ([], cs)
  | '\\' :: _ => none
  | c :: cs => (parseStrAux cs).map fun p => (c :: p.1, p.2)

/-- Parser modes: a single value, the tail of an array (elements up to
`]`), or the tail of an object (members up to the closing brace). -/
inductive PMode where
  | top
  | elems
  | members

/-- Parser results for the three modes. -/
inductive PRes where
  | val (j : Json)
  | elems (js : List Json)
  | members (ms : List (String × Json))

/-- Recursive-descent parser for the integer subset of JSON, written as
a single function structurally recursive on fuel so that the kernel can
evaluate it.  Each nested call decreases the fuel by one and the call
depth is at most twice the input length, so the generous fuel supplied
by `jsonParse` is never exhausted. -/
def parseRun : Nat → PMode → List Char → Option (PRes × List Char)
  | 0, _, _ => none
  | fuel+1, PMode.top, cs =>
    match skipWs cs with
    | '"' :: rest => (parseStrAux rest).map fun p => (PRes.val (Json.str (String.mk p.1)), p.2)
    | '[' :: rest =>
      (match skipWs rest with
       | ']' :: r => some (PRes.val (Json.arr []), r)
       | _ =>
         match parseRun fuel PMode.elems rest with
         | some (PRes.elems js, r) => some (PRes.val (Json.arr js), r)
         | _ => none)
    | '\x7b' :: rest =>
      (match skipWs rest with
       | '\x7d' :: r => some (PRes.val (Json.obj []), r)
       | _ =>
         match parseRun fuel PMode.members rest with
         | some (PRes.members ms, r) => some (PRes.val (Json.obj ms), r)
         | _ => none)
    | 't' :: rest =>
      if startsWithChars ['r', 'u', 'e'] rest then some (PRes.val (Json.bool true), rest.drop 3)
      else none
    | 'f' :: rest =>
      if startsWithChars ['a', 'l', 's', 'e'] rest then some (PRes.val (Json.bool false), rest.drop 4)
      else none
    | 'n' :: rest =>
      if startsWithChars ['u', 'l', 'l'] rest then some (PRes.val Json.null, rest.drop 3)
      else none
    | '-' :: rest =>
      (let ds := rest.takeWhile Char.isDigit
       if ds.isEmpty then none
       else if ds.length > 1 && ds.headD '0' = '0' then none
       else some (PRes.val (Json.num (-(natOfDigits ds : Int))), rest.dropWhile Char.isDigit))
    | c :: rest =>
      if c.isDigit then
        (let ds := (c :: rest).takeWhile Char.isDigit
         if ds.length > 1 && ds.headD '0' = '0' then none
         else some (PRes.val (Json.num (natOfDigits ds)), (c :: rest).dropWhile Char.isDigit))
      else none
    | [] => none
  | fuel+1, PMode.elems, cs =>
    (match parseRun fuel PMode.top cs with
     | some (PRes.val j, r) =>
       (match skipWs r with
        | ',' :: r2 =>
          (match parseRun fuel PMode.elems r2 with
           | some (PRes.elems js, r3) => some (PRes.elems (j :: js), r3)
           | _ => none)
        | ']' :: r2 => some (PRes.elems [j], r2)
        | _ => none)
     | _ => none)
  | fuel+1, PMode.members, cs =>
    (match skipWs cs with
     | '"' :: rest =>
       (match parseStrAux rest with
        | none => none
        | some (k, r) =>
          (match skipWs r with
           | ':' :: r2 =>
             (match parseRun fuel PMode.top r2 with
              | some (PRes.val v, r3) =>
                (match skipWs r3 with
                 | ',' :: r4 =>
                   (match parseRun fuel PMode.members r4 with
                    | some (PRes.members ms, r5) => some (PRes.members ((String.mk k, v) :: ms), r5)
                    | _ => none)
                 | '\x7d' :: r4 => some (PRes.members [(String.mk k, v)], r4)
                 | _ => none)
              | _ => none)
           | _ => none))
     | _ => none)

/-- Model of the platform `JSON.parse` on the integer subset of JSON:
parse one value and reject trailing non-whitespace. -/
def jsonParse (s : String) : Option Json :=
  match parseRun (2 * s.length + 4) PMode.top s.data with
  | some (PRes.val j, r) => if (skipWs r).isEmpty then some j else none
  | _ => none

/-- Model of the JavaScript `String(x)` coercion for JSON-representable
values, with fuel driving the recursion into arrays (arrays stringify
as their elements joined by commas, `null` elements as empty). -/
def jsonToStringGo : Nat → Json → String
  | _, Json.null => "null"
  | _, Json.bool b => cond b "true" "false"
  | _, Json.num n => toString n
  | _, Json.str s => s
  | _, Json.obj _ => "[object Object]"
  | 0, Json.arr _ => ""
  | fuel+1, Json.arr l =>
      String.intercalate ","
        (l.map fun j => match j with | Json.null => "" | v => jsonToStringGo fuel v)

/-- JavaScript property read `x[k]` on a non-null decoded value:
defined only for objects (last duplicate key wins, as in `JSON.parse`);
on every other non-null value the property is absent (`undefined`). -/
def jsGetField (j : Json) (k : String) : Option Json :=
  match j with
  | Json.obj ms => (ms.reverse.find? fun m => m.1 = k).map (·.2)
  | _ => none

/-- Model of `String(a.year)` for a non-null array element `a`: a
missing property is `undefined` and `String(undefined) = "undefined"`.
The fuel `cf` must dominate the nesting depth of the value (every
caller passes the response text length, which always does). -/
def yearStringOf (cf : Nat) (j : Json) : String :=
  match jsGetField j "year" with
  | none => "undefined"
  | some v => jsonToStringGo cf v

/-- The comparator of `src/index.tsx` lines 54–58 applied to raw decoded
elements: reading `.year` off a `null` element throws a `TypeError`
(modelled as `Except.error`); otherwise it is `cmpYears` on the
stringified year properties. -/
def jsCmp (cf : Nat) (a b : Json) : Except Unit Int :=
  match a, b with
  | Json.null, _ => Except.error ()
  | _, Json.null => Except.error ()
  | a, b => Except.ok (cmpYears (yearStringOf cf a) (yearStringOf cf b))

/-- Exception-aware copy of `mrgGo` for raw decoded elements: a thrown
comparison aborts the sort (and is caught by the surrounding `try`). -/
def mrgGoE (cf : Nat) : Nat → List Json → List Json → Except Unit (List Json)
  | _, [], ys => Except.ok ys
  | _, xs, [] => Except.ok xs
  | 0, xs, ys => Except.ok (xs ++ ys)
  | fuel+1, x :: xs, y :: ys =>
    match jsCmp cf x y with
    | Except.error e => Except.error e
    | Except.ok c =>
      if c ≤ 0 then
        match mrgGoE cf fuel xs (y :: ys) with
        | Except.error e => Except.error e
        | Except.ok r => Except.ok (x :: r)
      else
        match mrgGoE cf fuel (x :: xs) ys with
        | Except.error e => Except.error e
        | Except.ok r => Except.ok (y :: r)

/-- Exception-aware copy of `msortGo` for raw decoded elements. -/
def msortGoE (cf : Nat) : Nat → List Json → Except Unit (List Json)
  | _, [] => Except.ok []
  | _, [a] => Except.ok [a]
  | 0, l => Except.ok l
  | fuel+1, a :: b :: l =>
    match msortGoE cf fuel ((a :: b :: l).take ((l.length + 2 + 1) / 2)),
          msortGoE cf fuel ((a :: b :: l).drop ((l.length + 2 + 1) / 2)) with
    | Except.ok ls, Except.ok rs => mrgGoE cf (l.length + 2) ls rs
    | Except.error e, _ => Except.error e
    | _, Except.error e => Except.error e

/-- The raw `events.sort(comparator)` call on the decoded array: the
stable merge sort under the throwing comparator (`cf` bounds the
nesting depth of the decoded values for stringification). -/
def sortJson (cf : Nat) (l : List Json) : Except Unit (List Json) :=
  msortGoE cf l.length l

/-- Model of `String.prototype.trim` (as in `response.text.trim()` and
`prompt.trim()`): strip the common whitespace characters from both
ends.  Defined from scratch on the character list so that it reduces
definitionally. -/
def jsTrim (s : String) : String :=
  String.mk (((s.data.dropWhile isWsChar).reverse.dropWhile isWsChar).reverse)

/-- The localized error message set in the `catch` block. -/
def errorMessage : String :=
  "타임라인 정보를 가져오는 데 실패했습니다. 다시 시도해 주세요."

/-- The UI state bundle of the `App` component (`useState` hooks). -/
structure AppState where
  prompt : String
  timelineEvents : List Json
  isLoading : Bool
  error : Option String
  selectedEvent : Option Json

/-- Outcome of the awaited service call: either the request itself
throws, or it yields a response text. -/
inductive FetchOutcome where
  | requestError
  | responseText (s : String)

/-- One complete run of `fetchTimeline` (lines 22–67): set loading,
clear error and events, then either parse/sort/store the response or
absorb any thrown error into the generic error message; `finally`
clears the loading flag.  `JSON.parse` failure, calling `.sort` on a
non-array parse result, and a comparator `TypeError` are the three ways
the `try` block throws after a response arrives. -/
def fetchTimelineRun (st : AppState) (o : FetchOutcome) : AppState :=
  let cleared : AppState := { st with isLoading := true, error := none, timelineEvents := [] }
  let done : AppState :=
    match o with
    | FetchOutcome.requestError => { cleared with error := some errorMessage }
    | FetchOutcome.responseText s =>
      match jsonParse (jsTrim s) with
      | none => { cleared with error := some errorMessage }
      | some (Json.arr events) =>
        (match sortJson s.length events with
         | Except.ok sorted => { cleared with timelineEvents := sorted }
         | Except.error _ => { cleared with error := some errorMessage })
      | some _ => { cleared with error := some errorMessage }
  { done with isLoading := false }

/-- The submit handler (lines 69–74): a request is made only when the
trimmed prompt is non-empty (JavaScript truthiness of the trimmed
string); the returned flag records whether `fetchTimeline` was called.
The state itself is untouched by the handler. -/
def handleSubmit (st : AppState) : AppState × Bool :=
  if jsTrim st.prompt = "" then (st, false) else (st, true)

/-- The initial UI state of the component. -/
def initialState : AppState :=
  { prompt := "조선시대 왕들을 순서대로 나열해줘"
    timelineEvents := []
    isLoading := false
    error := none
    selectedEvent := none }

/-- A service response that is valid JSON but whose single array element
lacks the required `year` field. -/
def missingFieldText : String :=
  "[\x7b\"title\":\"t\",\"description\":\"d\",\"details\":\"x\"\x7d]"

/-- The decoded element of `missingFieldText`. -/
def missingFieldEvent : Json :=
  Json.obj [("title", Json.str "t"), ("description", Json.str "d"), ("details", Json.str "x")]

/-- Event list from the spec scenario about Korean history. -/
def koreaScenario : List TimelineEvent :=
  [mkEvent "1392" "Joseon founded", mkEvent "BC 108" "Gojoseon falls",
   mkEvent "935" "Unified Silla ends"]

/-- Expected sorted order of `koreaScenario`. -/
def koreaSorted : List TimelineEvent :=
  [mkEvent "BC 108" "Gojoseon falls", mkEvent "935" "Unified Silla ends",
   mkEvent "1392" "Joseon founded"]

/-- Four events, one with a digit-free year, on which the comparator is
inconsistent (the `NaN` key ties with everything). -/
def cexNanList : List TimelineEvent :=
  [mkEvent "5" "a", mkEvent "6" "b", mkEvent "unknown" "u", mkEvent "0" "z"]

/-- An eight-event list with two tied zero-year events (in input order
"first zero" before "second zero") and one digit-free year. -/
def stableCexInput : List TimelineEvent :=
  [mkEvent "5" "a", mkEvent "6" "b", mkEvent "unknown" "u", mkEvent "0" "first zero",
   mkEvent "0" "second zero", mkEvent "9" "n", mkEvent "9" "n", mkEvent "9" "n"]

/-- The sorter's output on `stableCexInput`: the two zero-year events
come out in swapped relative order. -/
def stableCexOutput : List TimelineEvent :=
  [mkEvent "0" "second zero", mkEvent "5" "a", mkEvent "6" "b", mkEvent "unknown" "u",
   mkEvent "0" "first zero", mkEvent "9" "n", mkEvent "9" "n", mkEvent "9" "n"]

/-- A state whose prompt is whitespace-only. -/
def blankState : AppState :=
  { initialState with prompt := "   " }

/-! ## Helper lemmas -/

theorem mrgGo_eq (le : α → α → Bool) :
    ∀ (fuel : Nat) (xs ys : List α), xs.length + ys.length ≤ fuel + 1 →
      mrgGo le fuel xs ys = xs.merge ys le := by
  intro fuel
  induction fuel with
  | zero =>
    intro xs ys h
    match xs, ys, h with
    | [], ys, _ => simp [mrgGo]
    | x :: xs, [], _ => simp [mrgGo]
    | x :: xs, y :: ys, h => simp at h; omega
  | succ fuel ih =>
    intro xs ys h
    match xs, ys with
    | [], ys => simp [mrgGo]
    | x :: xs, [] => simp [mrgGo]
    | x :: xs, y :: ys =>
      have h' : xs.length + ys.length + 2 ≤ fuel + 2 := by
        simpa [Nat.add_assoc, Nat.add_comm, Nat.add_left_comm] using h
      rw [List.cons_merge_cons, mrgGo]
      split
      · rw [ih xs (y :: ys) (by simp; omega)]
      · rw [ih (x :: xs) ys (by simp; omega)]

theorem msortGo_eq (le : α → α → Bool) :
    ∀ (fuel : Nat) (l : List α), l.length ≤ fuel + 1 → msortGo le fuel l = l.mergeSort le := by
  intro fuel
  induction fuel with
  | zero =>
    intro l h
    match l, h with
    | [], _ => simp [msortGo]
    | [a], _ => simp [msortGo]
    | a :: b :: l, h => simp at h
  | succ fuel ih =>
    intro l h
    match l with
    | [] => simp [msortGo]
    | [a] => simp [msortGo]
    | a :: b :: l =>
      have h' : l.length + 2 ≤ fuel + 2 := by simpa using h
      rw [List.mergeSort, msortGo, List.splitInTwo_fst, List.splitInTwo_snd]
      simp only [List.length_cons]
      rw [ih _ (by simp [List.length_take]; omega), ih _ (by simp [List.length_drop]; omega)]
      rw [mrgGo_eq]
      simp [List.length_take, List.length_drop]
      omega

theorem msort_eq_mergeSort (le : α → α → Bool) (l : List α) : msort le l = l.mergeSort le :=
  msortGo_eq le l.length l (by omega)

theorem sortTimeline_eq_msort (l : List TimelineEvent) : sortTimeline l = msort eventLe l :=
  (msort_eq_mergeSort eventLe l).symm

theorem yearKey_of_digits {s : String} (h : digitsOf s ≠ []) : ∃ k, yearKey s = some k := by
  unfold yearKey
  have he : (digitsOf s).isEmpty = false := by
    cases hd : digitsOf s with
    | nil => exact absurd hd h
    | cons c cs => simp [List.isEmpty]
  by_cases hb : containsBC s <;> simp [he, hb]

theorem eventLe_eq_eventLeD {a b : TimelineEvent}
    (ha : digitsOf a.year ≠ []) (hb : digitsOf b.year ≠ []) :
    eventLe a b = eventLeD a b := by
  obtain ⟨ka, hka⟩ := yearKey_of_digits ha
  obtain ⟨kb, hkb⟩ := yearKey_of_digits hb
  unfold eventLe eventLeD cmpYears keyD
  rw [hka, hkb]
  simp only [Option.getD_some]
  exact decide_eq_decide.mpr sub_nonpos

theorem eventLeD_trans : ∀ a b c : TimelineEvent, eventLeD a b → eventLeD b c → eventLeD a c := by
  intro a b c h1 h2
  simp only [eventLeD, decide_eq_true_eq] at *
  omega

theorem eventLeD_total : ∀ a b : TimelineEvent, eventLeD a b || eventLeD b a := by
  intro a b
  simp only [eventLeD, Bool.or_eq_true, decide_eq_true_eq]
  omega

theorem sortTimeline_eq_mergeSortD {l : List TimelineEvent}
    (h : ∀ e ∈ l, digitsOf e.year ≠ []) :
    sortTimeline l = l.mergeSort eventLeD := by
  have hl : ∀ a ∈ l, ∀ b ∈ l, eventLe a b = eventLeD (id a) (id b) :=
    fun a ha b hb => eventLe_eq_eventLeD (h a ha) (h b hb)
  have hmap := List.map_mergeSort hl
  simpa [sortTimeline] using hmap

/-! ## Claims -/

/-- Claim C1, counterexample: on the concrete list `cexNanList` the
event with effective year `0` (year string `"0"`) ends up at position 3
of the sorted output, after the event with effective year `5` at
position 0, because the digit-free year `"unknown"` makes the comparator
return `0` (a tie) against every element.  So the claim "for every input
list, every pair with effective years y1 ≤ y2 is output in that order"
is false. -/
theorem sortTimeline_nan_order_cex :
    yearKey "0" = some 0 ∧ yearKey "5" = some 5 ∧
    sortTimeline cexNanList = cexNanList ∧
    (sortTimeline cexNanList)[0]? = some (mkEvent "5" "a") ∧
    (sortTimeline cexNanList)[3]? = some (mkEvent "0" "z") := by
  rw [sortTimeline_eq_msort]
  refine ⟨rfl, rfl, by decide, by decide, by decide⟩

/-- Claim C1 (amended): for every input list in which every event's year
string contains at least one digit (so every effective year is an actual
number and the comparator is consistent), the sorted output is ordered:
any earlier output event has effective year ≤ that of any later one. -/
theorem sortTimeline_sorted_of_digits {l : List TimelineEvent}
    (h : ∀ e ∈ l, digitsOf e.year ≠ []) :
    (sortTimeline l).Pairwise (fun a b => keyD a ≤ keyD b) := by
  rw [sortTimeline_eq_mergeSortD h]
  have hs := List.sorted_mergeSort eventLeD_trans eventLeD_total l
  exact hs.imp fun hab => by simpa [eventLeD] using hab

/-- Claim C1, witness of the amended theorem on the Korea scenario. -/
theorem sortTimeline_sorted_of_digits_witness :
    (∀ e ∈ koreaScenario, digitsOf e.year ≠ []) ∧
    (sortTimeline koreaScenario).Pairwise (fun a b => keyD a ≤ keyD b) :=
  ⟨by decide, sortTimeline_sorted_of_digits (by decide)⟩

/-- Claim C2, counterexample: `parseInt('')` is `NaN`, not `0`, so the
effective value of `"unknown"` is the `NaN` key `none` rather than
`some 0`; and behaviourally the `"unknown"` event does not sort the way
a zero-valued event does: a genuine `"0"` event moves in front of a
`"5"` event, while the `"unknown"` event stays behind it. -/
theorem yearKey_no_digits_cex :
    yearKey "unknown" = none ∧ yearKey "unknown" ≠ some 0 ∧
    sortTimeline [mkEvent "5" "a", mkEvent "unknown" "u"]
      = [mkEvent "5" "a", mkEvent "unknown" "u"] ∧
    sortTimeline [mkEvent "5" "a", mkEvent "0" "z"]
      = [mkEvent "0" "z", mkEvent "5" "a"] := by
  rw [sortTimeline_eq_msort, sortTimeline_eq_msort]
  exact ⟨rfl, by decide, by decide, by decide⟩

/-- Claim C2 (amended): a year string with no digits has the `NaN`
effective value (`none`), every comparison involving such an event
returns `0` (the `NaN` comparator result is coerced to `+0`, a tie with
every element), and sorting is total — it never throws on string
years. -/
theorem yearKey_no_digits_nan (s t : String) (h : digitsOf s = []) :
    yearKey s = none ∧ cmpYears s t = 0 ∧ cmpYears t s = 0 := by
  have h1 : yearKey s = none := by unfold yearKey; simp [h]
  refine ⟨h1, ?_, ?_⟩
  · unfold cmpYears
    rw [h1]
  · unfold cmpYears
    rw [h1]
    cases yearKey t <;> rfl

/-- Claim C2, witness of the amended theorem at `"unknown"`. -/
theorem yearKey_no_digits_nan_witness :
    digitsOf "unknown" = [] ∧
    (yearKey "unknown" = none ∧ cmpYears "unknown" "0" = 0 ∧ cmpYears "0" "unknown" = 0) :=
  ⟨by decide, yearKey_no_digits_nan "unknown" "0" (by decide)⟩

/-- Claim C3: sorting preserves length and the multiset of events (the
output is a permutation of the input; no event is lost, duplicated or
altered). -/
theorem sortTimeline_perm (l : List TimelineEvent) :
    (sortTimeline l).length = l.length ∧ (sortTimeline l).Perm l :=
  ⟨(List.mergeSort_perm l eventLe).length_eq, List.mergeSort_perm l eventLe⟩

/-- Claim C4, counterexample: when the digit magnitude is `0` the
before-common-era marker does not make the effective value strictly
smaller: `"BC 0"` and `"0"` have the same effective value `0` (in
JavaScript `-0 === 0`), so `"BC 0"` does not sort before `"0"`. -/
theorem yearKey_bc_marker_cex :
    containsBC "BC 0" = true ∧ containsBC "0" = false ∧
    digitsOf "BC 0" = digitsOf "0" ∧
    yearKey "BC 0" = some 0 ∧ yearKey "0" = some 0 ∧
    cmpYears "BC 0" "0" = 0 := by
  decide

/-- Claim C4 (amended): if `s` contains the `"BC"` token, `t` does not,
both have the same digits, and the digit magnitude is positive, then the
effective value of `s` (`-n`) is strictly smaller than that of `t` (`n`)
and the comparator sorts `s` before `t`. -/
theorem yearKey_bc_lt {s t : String}
    (hs : containsBC s = true) (ht : containsBC t = false)
    (hd : digitsOf s = digitsOf t) (hpos : 0 < natOfDigits (digitsOf s)) :
    yearKey s = some (-(natOfDigits (digitsOf s) : Int)) ∧
    yearKey t = some ((natOfDigits (digitsOf s) : Int)) ∧
    cmpYears s t < 0 := by
  have hne : digitsOf s ≠ [] := by
    intro h0
    rw [h0] at hpos
    simp [natOfDigits] at hpos
  have he : (digitsOf s).isEmpty = false := by
    cases hdd : digitsOf s with
    | nil => exact absurd hdd hne
    | cons c cs => simp [List.isEmpty]
  have het : (digitsOf t).isEmpty = false := by rw [← hd]; exact he
  have h1 : yearKey s = some (-(natOfDigits (digitsOf s) : Int)) := by
    unfold yearKey; simp [he, hs]
  have h2 : yearKey t = some ((natOfDigits (digitsOf s) : Int)) := by
    unfold yearKey
    rw [← hd]
    simp [he, ht]
  refine ⟨h1, h2, ?_⟩
  have h3 : cmpYears s t
      = -(natOfDigits (digitsOf s) : Int) - natOfDigits (digitsOf s) := by
    unfold cmpYears
    rw [h1, h2]
  rw [h3]
  omega

/-- Claim C4, witness of the amended theorem: `"BC 108"` sorts before
`"AD 108"` and before plain `"108"`. -/
theorem yearKey_bc_lt_witness :
    0 < natOfDigits (digitsOf "BC 108") ∧
    cmpYears "BC 108" "AD 108" < 0 ∧ cmpYears "BC 108" "108" < 0 :=
  ⟨by decide,
   (yearKey_bc_lt (by decide) (by decide) (by decide) (by decide)).2.2,
   (yearKey_bc_lt (by decide) (by decide) (by decide) (by decide)).2.2⟩

/-- Claim C5, evaluation at the failing input: a response that is valid
JSON but whose single object lacks the required `year` field is not
rejected by the decode step (`JSON.parse` plus an unchecked type
assertion performs no field validation): the run ends in the success
state with the year-less event in the rendered list and no error. -/
theorem decode_accepts_missing_year :
    jsonParse missingFieldText = some (Json.arr [missingFieldEvent]) ∧
    jsGetField missingFieldEvent "year" = none ∧
    (fetchTimelineRun initialState (FetchOutcome.responseText missingFieldText)).error = none ∧
    (fetchTimelineRun initialState (FetchOutcome.responseText missingFieldText)).timelineEvents
      = [missingFieldEvent] :=
  ⟨rfl, rfl, rfl, rfl⟩

/-- Claim C6, counterexample: the response text `"[1,2]"` parses as JSON
but does not conform to the declared schema (its elements are numbers,
not objects with the required string fields); the claim says any such
response must end in the error state, yet the run ends in the success
state with two malformed entries and no error. -/
theorem fetch_accepts_nonschema_array :
    (fetchTimelineRun initialState (FetchOutcome.responseText "[1,2]")).error = none ∧
    (fetchTimelineRun initialState (FetchOutcome.responseText "[1,2]")).timelineEvents
      = [Json.num 1, Json.num 2] :=
  ⟨rfl, rfl⟩

/-- Claim C6 (amended): for every response text whose trimmed form fails
to parse as JSON (e.g. `"not json"`), the request cycle ends in the
error state: empty event list, the generic error message, loading
cleared, and the rest of the state untouched; the thrown parse error is
absorbed by the `catch`. -/
theorem fetch_error_on_unparseable (st : AppState) (s : String)
    (h : jsonParse (jsTrim s) = none) :
    fetchTimelineRun st (FetchOutcome.responseText s) =
      { prompt := st.prompt, timelineEvents := [], isLoading := false,
        error := some errorMessage, selectedEvent := st.selectedEvent } := by
  simp [fetchTimelineRun, h]

/-- Claim C6, witness of the amended theorem at response text
`"not json"`. -/
theorem fetch_error_on_unparseable_witness :
    jsonParse (jsTrim "not json") = none ∧
    fetchTimelineRun initialState (FetchOutcome.responseText "not json") =
      { prompt := initialState.prompt, timelineEvents := [], isLoading := false,
        error := some errorMessage, selectedEvent := initialState.selectedEvent } :=
  ⟨rfl, fetch_error_on_unparseable initialState "not json" rfl⟩

/-- Claim C7, counterexample: the sort is not stable on every input.
In `stableCexInput` the two events with equal effective year `0` appear
as "first zero" before "second zero", but the output has "second zero"
at position 0 and "first zero" at position 4: a digit-free year in the
list makes the comparator inconsistent and the merge moves the later
zero past the earlier one. -/
theorem sortTimeline_not_stable_cex :
    yearKey "0" = some 0 ∧
    stableCexInput[3]? = some (mkEvent "0" "first zero") ∧
    stableCexInput[4]? = some (mkEvent "0" "second zero") ∧
    sortTimeline stableCexInput = stableCexOutput ∧
    (sortTimeline stableCexInput)[0]? = some (mkEvent "0" "second zero") ∧
    (sortTimeline stableCexInput)[4]? = some (mkEvent "0" "first zero") := by
  rw [sortTimeline_eq_msort]
  refine ⟨rfl, by decide, by decide, by decide, by decide, by decide⟩

/-- Claim C7 (amended): on lists where every year string contains a
digit the sort is stable: two events with equal effective years keep
their relative input order (stated as sublist preservation of the
pair). -/
theorem sortTimeline_stable_of_digits {l : List TimelineEvent} {a b : TimelineEvent}
    (h : ∀ e ∈ l, digitsOf e.year ≠ []) (hab : [a, b].Sublist l)
    (hk : yearKey a.year = yearKey b.year) :
    [a, b].Sublist (sortTimeline l) := by
  rw [sortTimeline_eq_mergeSortD h]
  refine List.pair_sublist_mergeSort eventLeD_trans eventLeD_total ?_ hab
  simp [eventLeD, keyD, hk]

/-- Claim C7, witness of the amended theorem on a three-event list with
two tied zero-year events. -/
theorem sortTimeline_stable_of_digits_witness :
    (∀ e ∈ [mkEvent "0" "first zero", mkEvent "5" "a", mkEvent "0" "second zero"],
      digitsOf e.year ≠ []) ∧
    yearKey "0" = yearKey "0" ∧
    [mkEvent "0" "first zero", mkEvent "0" "second zero"].Sublist
      (sortTimeline [mkEvent "0" "first zero", mkEvent "5" "a", mkEvent "0" "second zero"]) :=
  ⟨by decide, rfl,
   sortTimeline_stable_of_digits (by decide)
     (List.Sublist.cons₂ _ (List.Sublist.cons _ (List.Sublist.refl _))) rfl⟩

/-- Claim C8, counterexample: `stableCexOutput` is a list already in the
order the sorter produces (it is the sorter's output on
`stableCexInput`), yet sorting it again changes it — the inconsistent
comparator caused by the digit-free year defeats idempotence. -/
theorem sortTimeline_not_idempotent_cex :
    sortTimeline stableCexInput = stableCexOutput ∧
    sortTimeline stableCexOutput ≠ stableCexOutput := by
  rw [sortTimeline_eq_msort, sortTimeline_eq_msort]
  exact ⟨by decide, by decide⟩

/-- Claim C8 (amended): on lists where every year string contains a
digit, sorting is idempotent: re-sorting the sorter's output returns it
unchanged. -/
theorem sortTimeline_idem_of_digits {l : List TimelineEvent}
    (h : ∀ e ∈ l, digitsOf e.year ≠ []) :
    sortTimeline (sortTimeline l) = sortTimeline l := by
  have h2 : ∀ e ∈ sortTimeline l, digitsOf e.year ≠ [] :=
    fun e he => h e (List.mem_mergeSort.mp he)
  rw [sortTimeline_eq_mergeSortD h2]
  apply List.mergeSort_of_sorted
  rw [sortTimeline_eq_mergeSortD h]
  exact List.sorted_mergeSort eventLeD_trans eventLeD_total l

/-- Claim C8, witness of the amended theorem on the Korea scenario. -/
theorem sortTimeline_idem_of_digits_witness :
    (∀ e ∈ koreaScenario, digitsOf e.year ≠ []) ∧
    sortTimeline (sortTimeline koreaScenario) = sortTimeline koreaScenario :=
  ⟨by decide, sortTimeline_idem_of_digits (by decide)⟩

/-- Claim C9: submitting while the prompt trims to the empty string
(JavaScript falsiness of `prompt.trim()`) triggers no request and leaves
the entire UI state unchanged. -/
theorem handleSubmit_blank (st : AppState) (h : jsTrim st.prompt = "") :
    handleSubmit st = (st, false) := by
  simp [handleSubmit, h]

/-- Claim C9, witness at a whitespace-only prompt. -/
theorem handleSubmit_blank_witness :
    jsTrim "   " = "" ∧ handleSubmit blankState = (blankState, false) :=
  ⟨rfl, handleSubmit_blank blankState rfl⟩

/-- Claim C10: the spec scenario input sorts to Gojoseon falls (BC 108),
Unified Silla ends (935), Joseon founded (1392). -/
theorem sortTimeline_korea_scenario : sortTimeline koreaScenario = koreaSorted := by
  rw [sortTimeline_eq_msort]
  decide
